import Mathlib

/-!
Verification of the signing coordinator of `secure-signer`
(`src/api/signing_route.rs`) against its design specification.

The route code (`is_slashable`, `update_slash_protection_db`,
`secure_sign_bls`) is embedded directly from the source.  Collaborators
that live outside the provided source tree — JSON parsing, key
sanitization, the signing-root deriver, the BLS signer, and the
slashing-protection store (`SlashingProtectionData`) — are modelled: the
pure external capabilities as oracle parameters (fields of `Env` or the
`sign` argument), and the store's operations from the specification's
contract for them.
-/

/-! ## Eth2 data model (the fields the route reads) -/

abbrev Slot := Nat

abbrev Epoch := Nat

/-- Root is a 32-byte digest; modelled abstractly as a byte list. -/
abbrev Root := List Nat

/-- Version is a 4-byte fork version; modelled abstractly as a byte list. -/
abbrev Version := List Nat

/-- Signature bytes returned by the BLS signer. -/
abbrev Signature := List Nat

structure BeaconBlock where
  slot : Slot

structure BlockRequest where
  block : BeaconBlock

structure BlockHeader where
  slot : Slot

structure BeaconBlockBody where
  block_header : BlockHeader

structure BlockV2Request where
  beacon_block : BeaconBlockBody

structure Checkpoint where
  epoch : Epoch

structure AttestationData where
  source : Checkpoint
  target : Checkpoint

structure AttestationRequest where
  attestation : AttestationData

/-- Tagged union of signing requests, as deserialized by serde.  The
uppercase and lowercase variants are distinct serde tags handled
identically by the route; `OTHER` stands for every further message kind
(randao reveal, aggregation slot, ...), none of which the route treats
specially. -/
inductive BLSSignMsg where
  | BLOCK (m : BlockRequest)
  | block (m : BlockRequest)
  | BLOCK_V2 (m : BlockV2Request)
  | block_v2 (m : BlockV2Request)
  | ATTESTATION (m : AttestationRequest)
  | attestation (m : AttestationRequest)
  | OTHER (kind : Nat)

/-- Modelled from the spec: `can_be_slashed` lives in `eth_signing`,
outside the provided sources.  Spec §2: the message model exposes "a
predicate [for] is this message kind ever slashable"; only block
proposals and attestations carry slashing risk. -/
def BLSSignMsg.can_be_slashed : BLSSignMsg → Bool
  | .BLOCK _ | .block _ | .BLOCK_V2 _ | .block_v2 _
  | .ATTESTATION _ | .attestation _ => true
  | .OTHER _ => false

/-! ## Slashing-protection store, modelled from the spec (§3, §4.1, §4.2) -/

structure SignedBlockSlot where
  slot : Slot
  signing_root : Option Root

structure SignedAttestationEpochs where
  source_epoch : Epoch
  target_epoch : Epoch
  signing_root : Option Root

/-- Modelled from the spec: `SlashingProtectionData` lives in
`eth2::slash_protection`, outside the provided sources.  Spec §3: a
per-key durable record of prior signed block slots and attestation
epoch pairs.  `existed` records whether the history was durably present
before this read (as opposed to freshly bootstrapped under the growable
policy), which §4.1 makes the failure condition of the append
operations. -/
structure SlashingProtectionData where
  pk_hex : String
  blocks : List SignedBlockSlot
  attestations : List SignedAttestationEpochs
  existed : Bool

/-- The durable store: one optional protection history per key string. -/
abbrev Store := String → Option SlashingProtectionData

/-- Modelled from the spec (§4.1): `read(key) -> ProtectionHistory |
NotFound`; fails with `NotFound` if no history exists and the growable
policy is disabled, otherwise bootstraps an empty history.  The
returned history is keyed by `key`, keeping the spec's §3 invariant
that exactly one protection history exists per key. -/
def SlashingProtectionData.read (growable : Bool) (store : Store)
    (key : String) : Except String SlashingProtectionData :=
  match store key with
  | some db => .ok { db with pk_hex := key }
  | none =>
    if growable then .ok ⟨key, [], [], false⟩
    else .error "slash protection db not found"

/-- Modelled from the spec (§4.2): a candidate block slot is slashable
iff it is less than or equal to the slot of any block record already in
the history. -/
def SlashingProtectionData.is_slashable_block_slot
    (db : SlashingProtectionData) (slot : Slot) : Bool :=
  db.blocks.any (fun b => slot ≤ b.slot)

/-- Modelled from the spec (§4.2): a candidate attestation `(src, tgt)`
is slashable iff some existing record has the same target epoch (double
vote) or the two epoch ranges strictly surround one another in either
direction. -/
def SlashingProtectionData.is_slashable_attestation_epochs
    (db : SlashingProtectionData) (src tgt : Epoch) : Bool :=
  db.attestations.any (fun a =>
    tgt == a.target_epoch ||
    (src < a.source_epoch && a.target_epoch < tgt) ||
    (a.source_epoch < src && tgt < a.target_epoch))

/-- Modelled from the spec (§4.1): `record_block` returns the history
extended with the record, or fails if the growable policy is disabled
and no history previously existed for the key. -/
def SlashingProtectionData.new_block (db : SlashingProtectionData)
    (b : SignedBlockSlot) (growable : Bool) :
    Except String SlashingProtectionData :=
  if !growable && !db.existed then
    .error "slash protection db may not grow"
  else
    .ok { db with blocks := db.blocks ++ [b] }

/-- Modelled from the spec (§4.1): `record_attestation`, symmetric to
`new_block`. -/
def SlashingProtectionData.new_attestation (db : SlashingProtectionData)
    (a : SignedAttestationEpochs) (growable : Bool) :
    Except String SlashingProtectionData :=
  if !growable && !db.existed then
    .error "slash protection db may not grow"
  else
    .ok { db with attestations := db.attestations ++ [a] }

/-- Modelled from the spec (§4.1): `write` durably replaces the stored
history for the key, atomically, and may fail as an I/O fault.  Whether
the durable medium accepts the write is the oracle `writeOk`, keyed by
the history's key. -/
def SlashingProtectionData.write (db : SlashingProtectionData)
    (writeOk : String → Bool) (store : Store) : Except String Store :=
  if writeOk db.pk_hex then
    .ok (fun k => if k = db.pk_hex then some db else store k)
  else
    .error "failed to write slash protection db"

/-- History extended with the record `update_slash_protection_db`
constructs for a slashable-capable message (signing_route.rs:54-78):
the block record carries the message's slot and the attestation record
its source and target epochs, each with the given signing root; for
any other kind no record exists and the history is returned as is. -/
def SlashingProtectionData.appendRecord (db : SlashingProtectionData)
    (msg : BLSSignMsg) (root : Root) : SlashingProtectionData :=
  match msg with
  | .BLOCK m | .block m =>
    { db with blocks := db.blocks ++ [⟨m.block.slot, some root⟩] }
  | .BLOCK_V2 m | .block_v2 m =>
    { db with blocks := db.blocks
        ++ [⟨m.beacon_block.block_header.slot, some root⟩] }
  | .ATTESTATION m | .attestation m =>
    { db with attestations := db.attestations
        ++ [⟨m.attestation.source.epoch, m.attestation.target.epoch,
              some root⟩] }
  | .OTHER _ => db

/-! ## Environment: external capabilities consumed by the route (§6) -/

/-- External collaborators of the route, treated as oracles: serde
deserialization of the request body, BLS public-key sanitization, the
signing-root deriver `to_signing_root`, the compiled-in growable-policy
constant `ALLOW_GROWABLE_SLASH_PROTECTION_DB`, and the store's write
acceptance. -/
structure Env where
  growable : Bool
  parse : List Nat → Option BLSSignMsg
  sanitize : String → Option String
  toSigningRoot : BLSSignMsg → Option Version → Root
  writeOk : String → Bool

/-! ## The route itself, embedded from `src/api/signing_route.rs` -/

/-- Embeds `is_slashable` (signing_route.rs:27-47): read the slashing
DB for the key (the DB must exist: a failed read propagates), then
decide per message kind; kinds other than blocks and attestations are
never slashable. -/
def is_slashable (env : Env) (store : Store) (bls_pk_hex : String)
    (signing_data : BLSSignMsg) : Except String Bool :=
  match SlashingProtectionData.read env.growable store bls_pk_hex with
  | .error e => .error e
  | .ok db =>
    match signing_data with
    | .BLOCK m | .block m => .ok (db.is_slashable_block_slot m.block.slot)
    | .BLOCK_V2 m | .block_v2 m =>
      .ok (db.is_slashable_block_slot m.beacon_block.block_header.slot)
    | .ATTESTATION m | .attestation m =>
      .ok (db.is_slashable_attestation_epochs
        m.attestation.source.epoch m.attestation.target.epoch)
    | _ => .ok false

/-- Embeds `update_slash_protection_db` (signing_route.rs:49-85): read
the DB, compute the signing root with no fork context
(`to_signing_root(None)`), append the block or attestation record, and
durably write; any other message kind is an error.  Returns the updated
store on success. -/
def update_slash_protection_db (env : Env) (store : Store)
    (bls_pk_hex : String) (signing_data : BLSSignMsg) :
    Except String Store :=
  match SlashingProtectionData.read env.growable store bls_pk_hex with
  | .error e => .error e
  | .ok db =>
    let signing_root := env.toSigningRoot signing_data none
    match signing_data with
    | .BLOCK m | .block m =>
      match db.new_block ⟨m.block.slot, some signing_root⟩ env.growable with
      | .error e => .error e
      | .ok db2 => db2.write env.writeOk store
    | .BLOCK_V2 m | .block_v2 m =>
      match db.new_block ⟨m.beacon_block.block_header.slot, some signing_root⟩
          env.growable with
      | .error e => .error e
      | .ok db2 => db2.write env.writeOk store
    | .ATTESTATION m | .attestation m =>
      match db.new_attestation
          ⟨m.attestation.source.epoch, m.attestation.target.epoch,
            some signing_root⟩ env.growable with
      | .error e => .error e
      | .ok db2 => db2.write env.writeOk store
    | _ => .error "Should not update slash protection db for non blocks/attestations"

/-- HTTP status codes used by the route. -/
def BAD_REQUEST : Nat := 400

def PRECONDITION_FAILED : Nat := 412

def INTERNAL_SERVER_ERROR : Nat := 500

/-- Reply produced by the route: either `signature_success_response`
with the signature bytes, or `error_response` with a reason and status
code. -/
inductive BLSResponse where
  | success (sig : Signature)
  | err (reason : String) (status : Nat)

/-- Embeds `secure_sign_bls` (signing_route.rs:89-171): deserialize the
body, sanitize the key, reject slashable messages (412) and evaluation
failures (500), persist the protection record for slashable-capable
kinds before signing (persistence failure is 500 and terminal), then
invoke the BLS signer on the root derived with the genesis fork
version.  The signer is the explicit oracle `sign`; the updated store
is returned alongside the reply. -/
def secure_sign_bls (env : Env) (sign : String → Root → Except String Signature)
    (store : Store) (bls_pk_hex : String) (req : List Nat)
    (genesis_fork_version : Version) : BLSResponse × Store :=
  match env.parse req with
  | none => (.err "Malformed signing data" BAD_REQUEST, store)
  | some req =>
    match env.sanitize bls_pk_hex with
    | none => (.err "Bad bls_pk_hex" BAD_REQUEST, store)
    | some bls_pk_hex =>
      match is_slashable env store bls_pk_hex req with
      | .ok true =>
        (.err "Signing operation failed due to slashing protection rules"
          PRECONDITION_FAILED, store)
      | .error e => (.err e INTERNAL_SERVER_ERROR, store)
      | .ok false =>
        let signing_root := env.toSigningRoot req (some genesis_fork_version)
        match (if req.can_be_slashed then
            update_slash_protection_db env store bls_pk_hex req
          else .ok store) with
        | .error e => (.err e INTERNAL_SERVER_ERROR, store)
        | .ok store2 =>
          match sign bls_pk_hex signing_root with
          | .ok sig => (.success sig, store2)
          | .error e => (.err e INTERNAL_SERVER_ERROR, store2)

/-! ## Concrete fixtures used by witnesses and counterexamples -/

/-- Block-proposal request at slot 10. -/
def sampleBlockMsg : BLSSignMsg := .BLOCK ⟨⟨10⟩⟩

/-- Message of a kind that is never slashable. -/
def sampleOtherMsg : BLSSignMsg := .OTHER 0

/-- Attestation request with source epoch 2 and target epoch 5. -/
def sampleAttMsg : BLSSignMsg := .ATTESTATION ⟨⟨⟨2⟩, ⟨5⟩⟩⟩

/-- Store with no provisioned history for any key. -/
def emptyStore : Store := fun _ => none

/-- Provisioned history for key "abc": one block at slot 10. -/
def sampleDb : SlashingProtectionData := ⟨"abc", [⟨10, none⟩], [], true⟩

/-- Store holding `sampleDb` under key "abc". -/
def sampleStore : Store := fun k => if k = "abc" then some sampleDb else none

/-- Oracle environment: growable policy on, body bytes [1]/[2]/[3]
decode to the three sample messages, sanitization accepts every key
verbatim, the signing root is [0] without fork context and [1] with
one, and durable writes succeed. -/
def growEnv : Env where
  growable := true
  parse := fun b =>
    if b = [1] then some sampleBlockMsg
    else if b = [2] then some sampleOtherMsg
    else if b = [3] then some sampleAttMsg
    else none
  sanitize := fun s => some s
  toSigningRoot := fun _ ctx => match ctx with | none => [0] | some _ => [1]
  writeOk := fun _ => true

/-- `growEnv` with durable writes failing. -/
def failWriteEnv : Env := { growEnv with writeOk := fun _ => false }

/-- `growEnv` with the growable policy disabled (strict mode). -/
def strictEnv : Env := { growEnv with growable := false }

/-- `growEnv` with key sanitization rejecting every key. -/
def badKeyEnv : Env := { growEnv with sanitize := fun _ => none }

/-! ## Theorems for the claims -/

/-- C1: for a slashable-capable message that passed parsing, key
sanitization and the slashability check, a failing
`update_slash_protection_db` terminates the request with a 500
store-failure reply and an unchanged store; the reply is the same for
every signer oracle `sign`, so the signer is never invoked and no
signature is produced. -/
theorem secure_sign_bls_store_failure_no_signature
    (env : Env) (sign : String → Root → Except String Signature)
    (store : Store) (raw : String) (body : List Nat) (gfv : Version)
    (msg : BLSSignMsg) (key : String) (e : String)
    (hparse : env.parse body = some msg)
    (hsan : env.sanitize raw = some key)
    (hcap : msg.can_be_slashed = true)
    (hslash : is_slashable env store key msg = .ok false)
    (hupd : update_slash_protection_db env store key msg = .error e) :
    secure_sign_bls env sign store raw body gfv
      = (.err e INTERNAL_SERVER_ERROR, store) := by
  simp [secure_sign_bls, hparse, hsan, hslash, hcap, hupd]

/-- Witness for C1: with durable writes failing, the block request at
slot 10 parses, sanitizes, passes the slashability check, fails to
persist, and yields the 500 store-failure reply. -/
theorem secure_sign_bls_store_failure_no_signature_witness :
    failWriteEnv.parse [1] = some sampleBlockMsg ∧
    secure_sign_bls failWriteEnv (fun _ _ => .ok [7]) emptyStore "ab" [1] []
      = (.err "failed to write slash protection db" INTERNAL_SERVER_ERROR,
          emptyStore) :=
  ⟨rfl, secure_sign_bls_store_failure_no_signature failWriteEnv
    (fun _ _ => .ok [7]) emptyStore "ab" [1] [] sampleBlockMsg "ab"
    "failed to write slash protection db" rfl rfl rfl rfl rfl⟩

/-- C2: a request whose message the evaluator reports slashable
terminates with the 412 precondition-failed reply and an unchanged
store; the reply is the same for every signer oracle, so no record is
written and no signature is produced. -/
theorem secure_sign_bls_slashable_rejected
    (env : Env) (sign : String → Root → Except String Signature)
    (store : Store) (raw : String) (body : List Nat) (gfv : Version)
    (msg : BLSSignMsg) (key : String)
    (hparse : env.parse body = some msg)
    (hsan : env.sanitize raw = some key)
    (hslash : is_slashable env store key msg = .ok true) :
    secure_sign_bls env sign store raw body gfv
      = (.err "Signing operation failed due to slashing protection rules"
          PRECONDITION_FAILED, store) := by
  simp [secure_sign_bls, hparse, hsan, hslash]

/-- Witness for C2: re-requesting the already-recorded block slot 10
for key "abc" is slashable and rejected with 412, leaving the store
as it was. -/
theorem secure_sign_bls_slashable_rejected_witness :
    is_slashable growEnv sampleStore "abc" sampleBlockMsg = .ok true ∧
    secure_sign_bls growEnv (fun _ _ => .ok [7]) sampleStore "abc" [1] []
      = (.err "Signing operation failed due to slashing protection rules"
          PRECONDITION_FAILED, sampleStore) :=
  ⟨rfl, secure_sign_bls_slashable_rejected growEnv (fun _ _ => .ok [7])
    sampleStore "abc" [1] [] sampleBlockMsg "abc" rfl rfl rfl⟩

/-- C7: a request body that fails to deserialize terminates immediately
with the 400 malformed reply; the conclusion holds for every store,
sanitizer and signer oracle and returns the store unchanged, so none of
them is consulted. -/
theorem secure_sign_bls_malformed_body
    (env : Env) (sign : String → Root → Except String Signature)
    (store : Store) (raw : String) (body : List Nat) (gfv : Version)
    (hparse : env.parse body = none) :
    secure_sign_bls env sign store raw body gfv
      = (.err "Malformed signing data" BAD_REQUEST, store) := by
  simp [secure_sign_bls, hparse]

/-- Witness for C7: body [9] decodes to no message and is rejected
with 400. -/
theorem secure_sign_bls_malformed_body_witness :
    growEnv.parse [9] = none ∧
    secure_sign_bls growEnv (fun _ _ => .ok [7]) sampleStore "abc" [9] []
      = (.err "Malformed signing data" BAD_REQUEST, sampleStore) :=
  ⟨rfl, secure_sign_bls_malformed_body growEnv (fun _ _ => .ok [7])
    sampleStore "abc" [9] [] rfl⟩

/-- C8: a request that parses but whose key fails sanitization
terminates with the 400 malformed reply; the conclusion holds for every
store and signer oracle and returns the store unchanged, so neither is
touched, and by C7 a parse failure preempts this reply, placing
sanitization strictly after parsing. -/
theorem secure_sign_bls_bad_key
    (env : Env) (sign : String → Root → Except String Signature)
    (store : Store) (raw : String) (body : List Nat) (gfv : Version)
    (msg : BLSSignMsg)
    (hparse : env.parse body = some msg)
    (hsan : env.sanitize raw = none) :
    secure_sign_bls env sign store raw body gfv
      = (.err "Bad bls_pk_hex" BAD_REQUEST, store) := by
  simp [secure_sign_bls, hparse, hsan]

/-- Witness for C8: with a rejecting sanitizer, the well-formed block
request is rejected with 400 and the store is untouched. -/
theorem secure_sign_bls_bad_key_witness :
    badKeyEnv.parse [1] = some sampleBlockMsg ∧
    secure_sign_bls badKeyEnv (fun _ _ => .ok [7]) sampleStore "abc" [1] []
      = (.err "Bad bls_pk_hex" BAD_REQUEST, sampleStore) :=
  ⟨rfl, secure_sign_bls_bad_key badKeyEnv (fun _ _ => .ok [7])
    sampleStore "abc" [1] [] sampleBlockMsg rfl rfl⟩

/-- Helper: reading the protection store at a key yields a history
keyed by that key. -/
theorem SlashingProtectionData.read_keyed (growable : Bool)
    (store : Store) (key : String) (db : SlashingProtectionData)
    (h : SlashingProtectionData.read growable store key = .ok db) :
    db.pk_hex = key := by
  unfold SlashingProtectionData.read at h
  split at h
  · cases h; rfl
  · split at h
    · cases h; rfl
    · exact Except.noConfusion h

/-- Helper: a successful `new_block` appends exactly the given
record. -/
theorem SlashingProtectionData.new_block_ok
    (db db2 : SlashingProtectionData) (b : SignedBlockSlot)
    (growable : Bool) (h : db.new_block b growable = .ok db2) :
    db2 = { db with blocks := db.blocks ++ [b] } := by
  unfold SlashingProtectionData.new_block at h
  split at h
  · exact Except.noConfusion h
  · cases h; rfl

/-- Helper: a successful `new_attestation` appends exactly the given
record. -/
theorem SlashingProtectionData.new_attestation_ok
    (db db2 : SlashingProtectionData) (a : SignedAttestationEpochs)
    (growable : Bool) (h : db.new_attestation a growable = .ok db2) :
    db2 = { db with attestations := db.attestations ++ [a] } := by
  unfold SlashingProtectionData.new_attestation at h
  split at h
  · exact Except.noConfusion h
  · cases h; rfl

/-- Helper: after a successful `write`, the updated store holds the
written history under its key. -/
theorem SlashingProtectionData.write_lookup (db : SlashingProtectionData)
    (writeOk : String → Bool) (store store2 : Store) (key : String)
    (hpk : db.pk_hex = key)
    (h : db.write writeOk store = .ok store2) :
    store2 key = some db := by
  unfold SlashingProtectionData.write at h
  split at h
  · injection h with hst
    subst hst
    simp [hpk]
  · exact Except.noConfusion h

/-- C4 counterexample: the evaluator does consult the store even for a
message kind that is never slashable — with the growable policy
disabled and no history for the key, `is_slashable` on an `OTHER`
message returns the read error instead of false. -/
theorem is_slashable_other_consults_store :
    is_slashable strictEnv emptyStore "ab" (.OTHER 0)
        = .error "slash protection db not found" ∧
    is_slashable strictEnv emptyStore "ab" (.OTHER 0) ≠ .ok false := by
  constructor
  · rfl
  · intro h
    exact Except.noConfusion
      ((rfl : is_slashable strictEnv emptyStore "ab" (.OTHER 0)
          = .error "slash protection db not found").symm.trans h)

/-- C4 amended: for message kinds that are neither block proposals nor
attestations, the evaluator first reads the protection store and
returns false exactly when that read succeeds (for every store and
key); and when the read fails on a parsed, sanitized request carrying
such a message, the route terminates with the 500 store-failure reply
and an unchanged store rather than trivially passing. -/
theorem is_slashable_other_reads_store_first
    (env : Env) (sign : String → Root → Except String Signature)
    (store : Store) (raw : String) (body : List Nat) (gfv : Version)
    (key : String) (kind : Nat) (e : String)
    (hparse : env.parse body = some (.OTHER kind))
    (hsan : env.sanitize raw = some key)
    (hread : SlashingProtectionData.read env.growable store key
      = .error e) :
    (∀ (st : Store) (k : String), is_slashable env st k (.OTHER kind)
        = (SlashingProtectionData.read env.growable st k).map
            (fun _ => false)) ∧
    secure_sign_bls env sign store raw body gfv
      = (.err e INTERNAL_SERVER_ERROR, store) := by
  have heval : ∀ (st : Store) (k : String), is_slashable env st k (.OTHER kind)
      = (SlashingProtectionData.read env.growable st k).map (fun _ => false) := by
    intro st k
    unfold is_slashable
    cases h : SlashingProtectionData.read env.growable st k <;>
      simp [h, Except.map]
  refine ⟨heval, ?_⟩
  have hslash : is_slashable env store key (.OTHER kind) = .error e := by
    rw [heval store key, hread]
    rfl
  simp [secure_sign_bls, hparse, hsan, hslash]

/-- Witness for the amended C4: in strict mode with no history for
"ab", the never-slashable sample message is rejected by the route with
the 500 store-failure reply. -/
theorem is_slashable_other_reads_store_first_witness :
    strictEnv.parse [2] = some (.OTHER 0) ∧
    secure_sign_bls strictEnv (fun _ _ => .ok [7]) emptyStore "ab" [2] []
      = (.err "slash protection db not found" INTERNAL_SERVER_ERROR,
          emptyStore) :=
  ⟨rfl, (is_slashable_other_reads_store_first strictEnv (fun _ _ => .ok [7])
    emptyStore "ab" [2] [] "ab" 0 "slash protection db not found"
    rfl rfl rfl).2⟩

/-- C5: with the growable policy disabled and no provisioned history
for the key, a sign request with a slashable-capable message terminates
with the 500 store-failure reply and an unchanged store; the conclusion
holds for every signer oracle, so a `Signed` outcome is impossible. -/
theorem secure_sign_bls_unknown_key_strict
    (env : Env) (sign : String → Root → Except String Signature)
    (store : Store) (raw : String) (body : List Nat) (gfv : Version)
    (msg : BLSSignMsg) (key : String)
    (hgrow : env.growable = false)
    (hnone : store key = none)
    (hparse : env.parse body = some msg)
    (hsan : env.sanitize raw = some key)
    (_hcap : msg.can_be_slashed = true) :
    secure_sign_bls env sign store raw body gfv
      = (.err "slash protection db not found" INTERNAL_SERVER_ERROR,
          store) := by
  have hread : SlashingProtectionData.read env.growable store key
      = .error "slash protection db not found" := by
    simp [SlashingProtectionData.read, hnone, hgrow]
  have hslash : is_slashable env store key msg
      = .error "slash protection db not found" := by
    simp [is_slashable, hread]
  simp [secure_sign_bls, hparse, hsan, hslash]

/-- Witness for C5: in strict mode, the block request for the
unprovisioned key "ab" is rejected with 500. -/
theorem secure_sign_bls_unknown_key_strict_witness :
    strictEnv.growable = false ∧
    secure_sign_bls strictEnv (fun _ _ => .ok [7]) emptyStore "ab" [1] []
      = (.err "slash protection db not found" INTERNAL_SERVER_ERROR,
          emptyStore) :=
  ⟨rfl, secure_sign_bls_unknown_key_strict strictEnv (fun _ _ => .ok [7])
    emptyStore "ab" [1] [] sampleBlockMsg "ab" rfl rfl rfl rfl rfl⟩

/-- History of key "abc" after the sample attestation commits: the
record carries the signing root derived without fork context. -/
def sampleDbAtt : SlashingProtectionData :=
  ⟨"abc", [⟨10, none⟩], [⟨2, 5, some [0]⟩], true⟩

/-- Store after the sample attestation request for "abc" commits. -/
def sampleStoreAtt : Store :=
  fun k => if k = "abc" then some sampleDbAtt else sampleStore k

/-- C6: a request that passed parsing, sanitization, the slashability
check and (when slashable-capable) record persistence hands the signer
the sanitized key and the root derived with the genesis fork version;
signer success yields the success reply with the signature bytes, and
signer failure yields the 500 crypto-failure reply, the committed store
`store2` being returned either way. -/
theorem secure_sign_bls_invokes_signer
    (env : Env) (sign : String → Root → Except String Signature)
    (store : Store) (raw : String) (body : List Nat) (gfv : Version)
    (msg : BLSSignMsg) (key : String) (store2 : Store)
    (hparse : env.parse body = some msg)
    (hsan : env.sanitize raw = some key)
    (hslash : is_slashable env store key msg = .ok false)
    (hupd : (if msg.can_be_slashed then
        update_slash_protection_db env store key msg
      else .ok store) = .ok store2) :
    secure_sign_bls env sign store raw body gfv
      = (match sign key (env.toSigningRoot msg (some gfv)) with
         | .ok sig => (.success sig, store2)
         | .error e => (.err e INTERNAL_SERVER_ERROR, store2)) := by
  simp [secure_sign_bls, hparse, hsan, hslash, hupd]

/-- Witness for C6: the fresh attestation request for "abc" passes all
checks, commits the record, and the succeeding signer yields the
success reply with its signature bytes. -/
theorem secure_sign_bls_invokes_signer_witness :
    is_slashable growEnv sampleStore "abc" sampleAttMsg = .ok false ∧
    (secure_sign_bls growEnv (fun _ _ => .ok [9]) sampleStore "abc" [3] []).1
      = .success [9] := by
  refine ⟨rfl, ?_⟩
  have h := secure_sign_bls_invokes_signer growEnv (fun _ _ => .ok [9])
    sampleStore "abc" [3] [] sampleAttMsg "abc" sampleStoreAtt
    rfl rfl rfl rfl
  rw [h]

/-- History bootstrapped for key "ab" after the sample block request
commits under the growable policy. -/
def sampleDbBlock : SlashingProtectionData := ⟨"ab", [⟨10, some [0]⟩], [], false⟩

/-- Store after the sample block request for "ab" commits. -/
def sampleStoreBlock : Store :=
  fun k => if k = "ab" then some sampleDbBlock else emptyStore k

/-- C9: for every slashable-capable message, the protection record
appended by `update_slash_protection_db` carries the signing root
derived with no fork context (`to_signing_root(None)`), while the
coordinator hands the signer the root derived with the genesis fork
version (`to_signing_root(Some(genesis_fork_version))`). -/
theorem secure_sign_bls_recorded_root_without_fork_context
    (env : Env) (sign : String → Root → Except String Signature)
    (store : Store) (raw : String) (body : List Nat) (gfv : Version)
    (msg : BLSSignMsg) (key : String) (store2 : Store)
    (hcap : msg.can_be_slashed = true)
    (hparse : env.parse body = some msg)
    (hsan : env.sanitize raw = some key)
    (hslash : is_slashable env store key msg = .ok false)
    (hupd : update_slash_protection_db env store key msg = .ok store2) :
    (∃ db, SlashingProtectionData.read env.growable store key = .ok db ∧
        store2 key = some (db.appendRecord msg
          (env.toSigningRoot msg none))) ∧
    secure_sign_bls env sign store raw body gfv
      = (match sign key (env.toSigningRoot msg (some gfv)) with
         | .ok sig => (.success sig, store2)
         | .error e => (.err e INTERNAL_SERVER_ERROR, store2)) := by
  constructor
  · unfold update_slash_protection_db at hupd
    cases msg with
    | OTHER kind => simp [BLSSignMsg.can_be_slashed] at hcap
    | BLOCK m =>
      cases hread : SlashingProtectionData.read env.growable store key with
      | error e =>
        simp only [hread] at hupd
        exact Except.noConfusion hupd
      | ok db =>
        simp only [hread] at hupd
        cases hnb : SlashingProtectionData.new_block db
            ⟨m.block.slot, some (env.toSigningRoot (.BLOCK m) none)⟩
            env.growable with
        | error e =>
          simp only [hnb] at hupd
          exact Except.noConfusion hupd
        | ok db2 =>
          simp only [hnb] at hupd
          have hdb2 := SlashingProtectionData.new_block_ok _ _ _ _ hnb
          subst hdb2
          have hpk : db.pk_hex = key :=
            SlashingProtectionData.read_keyed _ _ _ _ hread
          exact ⟨db, rfl, SlashingProtectionData.write_lookup _ _ _ _ _ hpk hupd⟩
    | block m =>
      cases hread : SlashingProtectionData.read env.growable store key with
      | error e =>
        simp only [hread] at hupd
        exact Except.noConfusion hupd
      | ok db =>
        simp only [hread] at hupd
        cases hnb : SlashingProtectionData.new_block db
            ⟨m.block.slot, some (env.toSigningRoot (.block m) none)⟩
            env.growable with
        | error e =>
          simp only [hnb] at hupd
          exact Except.noConfusion hupd
        | ok db2 =>
          simp only [hnb] at hupd
          have hdb2 := SlashingProtectionData.new_block_ok _ _ _ _ hnb
          subst hdb2
          have hpk : db.pk_hex = key :=
            SlashingProtectionData.read_keyed _ _ _ _ hread
          exact ⟨db, rfl, SlashingProtectionData.write_lookup _ _ _ _ _ hpk hupd⟩
    | BLOCK_V2 m =>
      cases hread : SlashingProtectionData.read env.growable store key with
      | error e =>
        simp only [hread] at hupd
        exact Except.noConfusion hupd
      | ok db =>
        simp only [hread] at hupd
        cases hnb : SlashingProtectionData.new_block db
            ⟨m.beacon_block.block_header.slot,
              some (env.toSigningRoot (.BLOCK_V2 m) none)⟩
            env.growable with
        | error e =>
          simp only [hnb] at hupd
          exact Except.noConfusion hupd
        | ok db2 =>
          simp only [hnb] at hupd
          have hdb2 := SlashingProtectionData.new_block_ok _ _ _ _ hnb
          subst hdb2
          have hpk : db.pk_hex = key :=
            SlashingProtectionData.read_keyed _ _ _ _ hread
          exact ⟨db, rfl, SlashingProtectionData.write_lookup _ _ _ _ _ hpk hupd⟩
    | block_v2 m =>
      cases hread : SlashingProtectionData.read env.growable store key with
      | error e =>
        simp only [hread] at hupd
        exact Except.noConfusion hupd
      | ok db =>
        simp only [hread] at hupd
        cases hnb : SlashingProtectionData.new_block db
            ⟨m.beacon_block.block_header.slot,
              some (env.toSigningRoot (.block_v2 m) none)⟩
            env.growable with
        | error e =>
          simp only [hnb] at hupd
          exact Except.noConfusion hupd
        | ok db2 =>
          simp only [hnb] at hupd
          have hdb2 := SlashingProtectionData.new_block_ok _ _ _ _ hnb
          subst hdb2
          have hpk : db.pk_hex = key :=
            SlashingProtectionData.read_keyed _ _ _ _ hread
          exact ⟨db, rfl, SlashingProtectionData.write_lookup _ _ _ _ _ hpk hupd⟩
    | ATTESTATION m =>
      cases hread : SlashingProtectionData.read env.growable store key with
      | error e =>
        simp only [hread] at hupd
        exact Except.noConfusion hupd
      | ok db =>
        simp only [hread] at hupd
        cases hnb : SlashingProtectionData.new_attestation db
            ⟨m.attestation.source.epoch, m.attestation.target.epoch,
              some (env.toSigningRoot (.ATTESTATION m) none)⟩
            env.growable with
        | error e =>
          simp only [hnb] at hupd
          exact Except.noConfusion hupd
        | ok db2 =>
          simp only [hnb] at hupd
          have hdb2 := SlashingProtectionData.new_attestation_ok _ _ _ _ hnb
          subst hdb2
          have hpk : db.pk_hex = key :=
            SlashingProtectionData.read_keyed _ _ _ _ hread
          exact ⟨db, rfl, SlashingProtectionData.write_lookup _ _ _ _ _ hpk hupd⟩
    | attestation m =>
      cases hread : SlashingProtectionData.read env.growable store key with
      | error e =>
        simp only [hread] at hupd
        exact Except.noConfusion hupd
      | ok db =>
        simp only [hread] at hupd
        cases hnb : SlashingProtectionData.new_attestation db
            ⟨m.attestation.source.epoch, m.attestation.target.epoch,
              some (env.toSigningRoot (.attestation m) none)⟩
            env.growable with
        | error e =>
          simp only [hnb] at hupd
          exact Except.noConfusion hupd
        | ok db2 =>
          simp only [hnb] at hupd
          have hdb2 := SlashingProtectionData.new_attestation_ok _ _ _ _ hnb
          subst hdb2
          have hpk : db.pk_hex = key :=
            SlashingProtectionData.read_keyed _ _ _ _ hread
          exact ⟨db, rfl, SlashingProtectionData.write_lookup _ _ _ _ _ hpk hupd⟩
  · simp [secure_sign_bls, hparse, hsan, hslash, hcap, hupd]

/-- Witness for C9: the sample block request for the fresh key "ab"
commits the record with root [0] (derived with no fork context) and the
signer, fed the root derived with the fork version, succeeds. -/
theorem secure_sign_bls_recorded_root_without_fork_context_witness :
    sampleStoreBlock "ab" = some sampleDbBlock ∧
    (secure_sign_bls growEnv (fun _ _ => .ok [9]) emptyStore "ab" [1] []).1
      = .success [9] := by
  refine ⟨rfl, ?_⟩
  have h := (secure_sign_bls_recorded_root_without_fork_context growEnv
    (fun _ _ => .ok [9]) emptyStore "ab" [1] [] sampleBlockMsg "ab"
    sampleStoreBlock rfl rfl rfl rfl rfl).2
  rw [h]

/-- C10: a request whose message kind is not slashable-capable leaves
the protection store unchanged (for every signer oracle and every
evaluation outcome), and `update_slash_protection_db` invoked with such
a message never succeeds, so it produces no updated store. -/
theorem secure_sign_bls_non_slashable_frame
    (env : Env) (sign : String → Root → Except String Signature)
    (store st2 : Store) (raw : String) (body : List Nat) (gfv : Version)
    (msg : BLSSignMsg) (key k2 : String)
    (hparse : env.parse body = some msg)
    (hsan : env.sanitize raw = some key)
    (hcap : msg.can_be_slashed = false) :
    (secure_sign_bls env sign store raw body gfv).2 = store ∧
    (update_slash_protection_db env st2 k2 msg).isOk = false := by
  constructor
  · cases hsl : is_slashable env store key msg with
    | error e => simp [secure_sign_bls, hparse, hsan, hsl]
    | ok b =>
      cases b with
      | true => simp [secure_sign_bls, hparse, hsan, hsl]
      | false =>
        cases hs : sign key (env.toSigningRoot msg (some gfv)) with
        | ok sig => simp [secure_sign_bls, hparse, hsan, hsl, hcap, hs]
        | error e => simp [secure_sign_bls, hparse, hsan, hsl, hcap, hs]
  · cases msg with
    | OTHER kind =>
      unfold update_slash_protection_db
      cases hread : SlashingProtectionData.read env.growable st2 k2 with
      | error e => simp [hread, Except.isOk, Except.toBool]
      | ok db => simp [hread, Except.isOk, Except.toBool]
    | BLOCK m => simp [BLSSignMsg.can_be_slashed] at hcap
    | block m => simp [BLSSignMsg.can_be_slashed] at hcap
    | BLOCK_V2 m => simp [BLSSignMsg.can_be_slashed] at hcap
    | block_v2 m => simp [BLSSignMsg.can_be_slashed] at hcap
    | ATTESTATION m => simp [BLSSignMsg.can_be_slashed] at hcap
    | attestation m => simp [BLSSignMsg.can_be_slashed] at hcap

/-- Witness for C10: the never-slashable sample message leaves the
store of "abc" unchanged and makes `update_slash_protection_db` fail. -/
theorem secure_sign_bls_non_slashable_frame_witness :
    sampleOtherMsg.can_be_slashed = false ∧
    (secure_sign_bls growEnv (fun _ _ => .ok [7]) sampleStore "abc" [2] []).2
        = sampleStore ∧
    (update_slash_protection_db growEnv emptyStore "zz" sampleOtherMsg).isOk
        = false := by
  have h := secure_sign_bls_non_slashable_frame growEnv (fun _ _ => .ok [7])
    sampleStore emptyStore "abc" [2] [] sampleOtherMsg "abc" "zz"
    rfl rfl rfl
  exact ⟨rfl, h.1, h.2⟩
